import Mathlib

/-!
Shallow embedding of the SinglrLineVoiceAgent repository.

Two variants are modelled:
* `Recorded` — the recorded-audio variant (`src/index.js`, first document):
  HTTP route `/process-recording` transcribes a recording, consults
  `getAgentResponse` (which reads and mutates the per-call conversation
  history map) and replies with TwiML actions; `/call-status` deletes the
  call's history from the map.
* `Relay` — the streaming relay variant (`src/unnamed/part_004`): a
  WebSocket connection handler with per-connection state (`ws.streamSid`,
  `conversationHistory`), event handlers for Deepgram transcript / speak
  events and for socket message / close events.
-/

/-- A role of a conversation turn, as used in the OpenAI chat payloads
(`system`, `user`, `assistant`). -/
inductive Role where
  | system
  | user
  | assistant
deriving DecidableEq, Repr

/-- One conversation turn: `{ role, content }`. -/
structure Turn where
  role : Role
  content : String
deriving DecidableEq, Repr

/-- JavaScript `String.prototype.trim()`: strip whitespace from both ends.
(Defined over the character list so that it evaluates by kernel
reduction.) -/
def jsTrim (s : String) : String :=
  ⟨((s.data.dropWhile Char.isWhitespace).reverse.dropWhile Char.isWhitespace).reverse⟩

/-- The process-wide `conversationHistories` JavaScript `Map`, modelled as an
association list from call SID to history. -/
abbrev Histories := List (String × List Turn)

/-- `conversationHistories.get(k)` — first entry with the given key. -/
def lookupH (hs : Histories) (k : String) : Option (List Turn) :=
  (hs.find? (fun p => p.1 = k)).map (fun p => p.2)

/-- `conversationHistories.set(k, v)` — replace the entry if the key is
present, otherwise append a new entry. -/
def setH (hs : Histories) (k : String) (v : List Turn) : Histories :=
  if hs.any (fun p => p.1 = k) then
    hs.map (fun p => if p.1 = k then (k, v) else p)
  else
    hs ++ [(k, v)]

/-- `conversationHistories.delete(k)` — remove the entry for the key. -/
def deleteH (hs : Histories) (k : String) : Histories :=
  hs.filter (fun p => !(decide (p.1 = k)))

namespace Recorded

/-- The system turn installed when a call has no stored history yet
(`getAgentResponse`, `src/index.js` lines 58-64). -/
def defaultSystemTurn : Turn :=
  ⟨Role.system, "You are a friendly but extremely brief voice agent. Your goal is speed. Keep all responses under 20 words. Do not use filler phrases."⟩

/-- `getAgentResponse(text, callSid)` (`src/index.js` lines 56-80).

`history` is the stored array itself when the map already has the call SID
(JavaScript aliasing), so `history.push({role:'user',...})` mutates the
stored history *before* the provider call; when the map has no entry yet
the pushes happen on a fresh array and the map is only written by the
final `set`.  The provider (`openai.chat.completions.create`) may throw,
modelled as `Except.error ()`. -/
def getAgentResponse (provider : List Turn → Except Unit String)
    (hs : Histories) (callSid text : String) :
    Histories × Except Unit String :=
  let stored := lookupH hs callSid
  let base := stored.getD [defaultSystemTurn]
  let withUser := base ++ [⟨Role.user, text⟩]
  let hsAfterPush :=
    match stored with
    | some _ => setH hs callSid withUser
    | none => hs
  match provider withUser with
  | Except.error e => (hsAfterPush, Except.error e)
  | Except.ok reply =>
      (setH hs callSid (withUser ++ [⟨Role.assistant, reply⟩]), Except.ok reply)

/-- A TwiML action appended to the voice response. -/
inductive TwimlAction where
  | play (url : String)
  | say (msg : String)
  | record
deriving DecidableEq, Repr

/-- Message said in the route's `catch` block. -/
def malfunctionMsg : String := "I seem to be having a system malfunction. Please try again."

/-- Message said when the transcript fails the length guard. -/
def didntCatchMsg : String := "I didn\x27t catch that, could you say it again?"

/-- The `/process-recording` route handler (`src/index.js` lines 134-155),
from the point where the transcription result is available.

`transcribed` is the result of `transcribeAudio` (which may throw);
`synthUrl` abstracts `generateSpeech` (reply text to public audio URL).
Returns the updated histories map, the TwiML actions emitted in order, and
whether a generation call (`getAgentResponse`) was made. -/
def processRecording (provider : List Turn → Except Unit String)
    (synthUrl : String → String) (hs : Histories) (callSid : String)
    (transcribed : Except Unit String) :
    Histories × List TwimlAction × Bool :=
  match transcribed with
  | Except.error _ => (hs, [TwimlAction.say malfunctionMsg, TwimlAction.record], false)
  | Except.ok userText =>
      if (jsTrim userText).length > 1 then
        match getAgentResponse provider hs callSid userText with
        | (h2, Except.error _) =>
            (h2, [TwimlAction.say malfunctionMsg, TwimlAction.record], true)
        | (h2, Except.ok agentText) =>
            (h2, [TwimlAction.play (synthUrl agentText), TwimlAction.record], true)
      else
        (hs, [TwimlAction.say didntCatchMsg, TwimlAction.record], false)

/-- The `/call-status` route handler (`src/index.js` lines 157-162):
`conversationHistories.delete(callSid)`. -/
def callStatus (hs : Histories) (callSid : String) : Histories :=
  deleteH hs callSid

end Recorded

namespace Relay

/-- The system turn installed at connection time in the streaming relay
(`src/unnamed/part_004` lines 38-41). -/
def streamSystemTurn : Turn :=
  ⟨Role.system, "You are a funny, slightly sarcastic but friendly voice agent. You love telling jokes. Keep your responses concise and conversational."⟩

/-- An outbound Twilio media message, as built in the `speak` handler:
`{ event: 'media', streamSid: ws.streamSid, media: { payload } }`.
`streamSid` is `none` when `ws.streamSid` is still `undefined`. -/
structure MediaFrame where
  streamSid : Option String
  payload : String
deriving DecidableEq, Repr

/-- The per-connection mutable state of the relay: `ws.streamSid`,
`conversationHistory`, whether the socket has closed, whether
`deepgramLive.finish()` has been called, and the list of outbound media
frames whose send has been attempted on the socket, in order. -/
structure RelayState where
  streamSid : Option String
  history : List Turn
  closed : Bool
  deepgramFinished : Bool
  sent : List MediaFrame
deriving DecidableEq, Repr

/-- State right after `wss.on('connection')` runs its setup. -/
def initState : RelayState :=
  ⟨none, [streamSystemTurn], false, false, []⟩

/-- An inbound WebSocket message, after the shape of `JSON.parse`:
* `start sid` — `event: 'start'` with a `start` object present; `sid` is
  `start.streamSid` (`none` when that field is absent, i.e. `undefined`);
* `startMissing` — `event: 'start'` but no `start` object: reading
  `twilioMessage.start.streamSid` throws a `TypeError`;
* `media payload` — `event: 'media'` with `media.payload` present;
* `mediaMissing` — `event: 'media'` but no `media` object: reading
  `twilioMessage.media.payload` throws;
* `other` — valid JSON whose `event` is neither `start` nor `media`;
* `unparseable` — not valid JSON: `JSON.parse` throws. -/
inductive InboundMsg where
  | start (sid : Option String)
  | startMissing
  | media (payload : String)
  | mediaMissing
  | other
  | unparseable
deriving DecidableEq, Repr

/-- The `ws.on('message')` handler (`src/unnamed/part_004` lines 97-108).
Returns the new state and the audio payloads forwarded to
`deepgramLive.send`, or `Except.error ()` when the handler throws. -/
def onMessage (st : RelayState) : InboundMsg → Except Unit (RelayState × List String)
  | InboundMsg.start sid => Except.ok ({ st with streamSid := sid }, [])
  | InboundMsg.startMissing => Except.error ()
  | InboundMsg.media payload => Except.ok (st, [payload])
  | InboundMsg.mediaMissing => Except.error ()
  | InboundMsg.other => Except.ok (st, [])
  | InboundMsg.unparseable => Except.error ()

/-- The chunk loop of the transcript handler (`for await (const chunk ...)`):
accumulates `fullAgentResponse` and the list of non-empty chunks passed to
`deepgramLive.speak`, in order. -/
def speakLoop (chunks : List String) : String × List String :=
  chunks.foldl
    (fun acc c => if c = "" then acc else (acc.1 ++ c, acc.2 ++ [c]))
    ("", [])

/-- The `deepgramLive.on('transcript')` handler
(`src/unnamed/part_004` lines 48-80), with one generation cycle run to
completion.  `gen` abstracts the streaming
`openai.chat.completions.create` call: given the messages, it either
throws (`Except.error ()`) or yields the list of chunk contents.
Returns the new state, the text chunks passed to `deepgramLive.speak`,
and whether the generation call was made. -/
def onTranscript (gen : List Turn → Except Unit (List String))
    (st : RelayState) (transcript : String) (isFinal : Bool) :
    RelayState × List String × Bool :=
  if transcript ≠ "" ∧ isFinal then
    let hist1 := st.history ++ [⟨Role.user, transcript⟩]
    match gen hist1 with
    | Except.error _ => ({ st with history := hist1 }, [], true)
    | Except.ok chunks =>
        let full := (speakLoop chunks).1
        if full ≠ "" then
          ({ st with history := hist1 ++ [⟨Role.assistant, full⟩] },
           (speakLoop chunks).2, true)
        else
          ({ st with history := hist1 }, (speakLoop chunks).2, true)
  else
    (st, [], false)

/-- The `deepgramLive.on('speak')` handler
(`src/unnamed/part_004` lines 82-91): build the Twilio media message with
`streamSid: ws.streamSid` and call `ws.send` — unconditionally, with no
check that a start frame was seen or that the socket is still open. -/
def onSpeak (st : RelayState) (audio : String) : RelayState :=
  { st with sent := st.sent ++ [⟨st.streamSid, audio⟩] }

/-- The `ws.on('close')` handler (`src/unnamed/part_004` lines 110-113):
the socket is now closed and `deepgramLive.finish()` is called. -/
def onClose (st : RelayState) : RelayState :=
  { st with closed := true, deepgramFinished := true }

/-- An asynchronous event delivered to one connection's handlers. -/
inductive RelayEvent where
  | msg (m : InboundMsg)
  | transcript (t : String) (isFinal : Bool)
  | speak (audio : String)
  | close
deriving DecidableEq, Repr

/-- Dispatch one event to its handler.  `Except.error ()` when the handler
throws (only `onMessage` can). -/
def step (gen : List Turn → Except Unit (List String))
    (st : RelayState) : RelayEvent → Except Unit RelayState
  | RelayEvent.msg m => (onMessage st m).map (fun p => p.1)
  | RelayEvent.transcript t f => Except.ok (onTranscript gen st t f).1
  | RelayEvent.speak a => Except.ok (onSpeak st a)
  | RelayEvent.close => Except.ok (onClose st)

/-- Run a sequence of events, each handler running to completion before the
next (sequential event processing).  A throwing handler is an uncaught
exception: processing stops there. -/
def run (gen : List Turn → Except Unit (List String))
    (st : RelayState) : List RelayEvent → RelayState
  | [] => st
  | e :: rest =>
      match step gen st e with
      | Except.ok st2 => run gen st2 rest
      | Except.error _ => st

/-- Events whose handler throws. -/
def throwsEvent : RelayEvent → Bool
  | RelayEvent.msg InboundMsg.startMissing => true
  | RelayEvent.msg InboundMsg.mediaMissing => true
  | RelayEvent.msg InboundMsg.unparseable => true
  | _ => false

/-- Specification-side description of the outbound frames a trace produces:
each `speak` event yields one frame tagged with the stream SID learned
from the most recent preceding `start` frame (`none` before any). -/
def sentFrames (sid : Option String) : List RelayEvent → List MediaFrame
  | [] => []
  | RelayEvent.speak a :: rest => ⟨sid, a⟩ :: sentFrames sid rest
  | RelayEvent.msg (InboundMsg.start s) :: rest => sentFrames s rest
  | _ :: rest => sentFrames sid rest

/-- The history shapes reachable in the relay: the initial system turn
followed by one block per completed generation cycle — a lone user turn
(generation threw, or the reply was empty) or a user turn followed by the
assistant turn. -/
inductive HistOK : List Turn → Prop
  | init : HistOK [streamSystemTurn]
  | failBlock (l : List Turn) (t : String) :
      HistOK l → HistOK (l ++ [⟨Role.user, t⟩])
  | okBlock (l : List Turn) (t r : String) :
      HistOK l → HistOK (l ++ [⟨Role.user, t⟩, ⟨Role.assistant, r⟩])

/-- Checker for the claimed history shape: exactly one system turn, then
strictly alternating (user, agent) pairs. -/
def altPairs : List Turn → Bool
  | [] => true
  | ⟨Role.user, _⟩ :: ⟨Role.assistant, _⟩ :: rest => altPairs rest
  | _ => false

/-- Checker: the history starts with exactly one system turn followed by
strictly alternating user/agent pairs (`system, (user, agent)*`). -/
def isAltHistory : List Turn → Bool
  | ⟨Role.system, _⟩ :: rest => altPairs rest
  | _ => false

end Relay

/-! ## Concrete collaborators used in witnesses and counterexamples -/

/-- A provider that always succeeds with a fixed reply. -/
def provOk : List Turn → Except Unit String := fun _ => Except.ok "ok"

/-- A provider that always throws. -/
def provFail : List Turn → Except Unit String := fun _ => Except.error ()

/-- A speech URL generator for witnesses (the reply text itself). -/
def synthId : String → String := fun t => t

/-- A streaming generator that always succeeds with one chunk. -/
def genOk : List Turn → Except Unit (List String) := fun _ => Except.ok ["ok"]

/-! ## C8 / C9: session teardown -/

/-- C8: after teardown (`/call-status` deleting the call SID from
`conversationHistories`), the registry no longer contains an entry for
that identifier — the history does not outlive the session. -/
theorem teardown_removes_history (hs : Histories) (sid : String) :
    lookupH (Recorded.callStatus hs sid) sid = none := by
  induction hs with
  | nil => rfl
  | cons p rest ih =>
      by_cases h : p.1 = sid
      · simpa [Recorded.callStatus, deleteH, List.filter, h] using ih
      · simp [Recorded.callStatus, deleteH, List.filter, lookupH, List.find?, h] at ih ⊢

/-- C9: teardown is idempotent — deleting a call SID from the histories map
twice equals deleting it once (and raises no error), and running the
socket-close handler twice equals running it once. -/
theorem teardown_idempotent :
    (∀ (hs : Histories) (sid : String),
      Recorded.callStatus (Recorded.callStatus hs sid) sid = Recorded.callStatus hs sid)
    ∧ (∀ st : Relay.RelayState, Relay.onClose (Relay.onClose st) = Relay.onClose st) := by
  constructor
  · intro hs sid
    simp [Recorded.callStatus, deleteH, List.filter_filter]
  · intro st
    rfl

/-! ## C10: the recorded route's length guard -/

/-- C10: the `/process-recording` guard requires trimmed length strictly
greater than 1, so a transcript whose trimmed length is 0 or 1 makes no
generation call, mutates no history and reprompts the caller; when the
trimmed length exceeds 1 the generation call is made. -/
theorem recorded_guard_discards_short_transcripts :
    (∀ (provider : List Turn → Except Unit String) (synthUrl : String → String)
        (hs : Histories) (sid t : String), (jsTrim t).length ≤ 1 →
      Recorded.processRecording provider synthUrl hs sid (Except.ok t)
        = (hs, [Recorded.TwimlAction.say Recorded.didntCatchMsg, Recorded.TwimlAction.record],
            false))
    ∧ (∀ (provider : List Turn → Except Unit String) (synthUrl : String → String)
        (hs : Histories) (sid t : String), 1 < (jsTrim t).length →
      (Recorded.processRecording provider synthUrl hs sid (Except.ok t)).2.2 = true) := by
  constructor
  · intro provider synthUrl hs sid t h
    simp [Recorded.processRecording, Nat.not_lt.mpr h]
  · intro provider synthUrl hs sid t h
    rcases hg : Recorded.getAgentResponse provider hs sid t with ⟨h2, r⟩
    cases r <;> simp [Recorded.processRecording, h, hg]

/-- Witness for C10 at concrete inputs: the one-character transcript `"a"`
(neither empty nor whitespace-only) is discarded with a reprompt, while
`"hi"` triggers the generation call. -/
theorem recorded_guard_discards_short_transcripts_witness :
    Recorded.processRecording provOk synthId [] "CA1" (Except.ok "a")
      = ([], [Recorded.TwimlAction.say Recorded.didntCatchMsg, Recorded.TwimlAction.record],
          false)
    ∧ (Recorded.processRecording provOk synthId [] "CA1" (Except.ok "hi")).2.2 = true :=
  ⟨recorded_guard_discards_short_transcripts.1 provOk synthId [] "CA1" "a" (by decide),
   recorded_guard_discards_short_transcripts.2 provOk synthId [] "CA1" "hi" (by decide)⟩

/-! ## C7: the successful generation cycle -/

/-- C7: in a successful cycle, `getAgentResponse` appends the transcript
segment as a user turn, invokes the provider with the full ordered history
(system prompt, prior turns, then the new user turn), appends the
provider's reply as an agent turn, stores the result, and returns the
reply text. -/
theorem successful_cycle_appends_user_then_agent
    (provider : List Turn → Except Unit String) (hs : Histories)
    (sid t r : String)
    (h : provider ((lookupH hs sid).getD [Recorded.defaultSystemTurn]
          ++ [⟨Role.user, t⟩]) = Except.ok r) :
    Recorded.getAgentResponse provider hs sid t
      = (setH hs sid ((lookupH hs sid).getD [Recorded.defaultSystemTurn]
          ++ [⟨Role.user, t⟩, ⟨Role.assistant, r⟩]), Except.ok r) := by
  simp [Recorded.getAgentResponse, h]

/-- Witness for C7, the claim's own example: with no stored history, segment
`"hello there"` and a provider replying `"hi!"` exactly when given
`[system, user "hello there"]`, the stored history becomes
`[system, {user, hello there}, {agent, hi!}]` and `"hi!"` is returned. -/
theorem successful_cycle_appends_user_then_agent_witness :
    Recorded.getAgentResponse
        (fun msgs => if msgs = [Recorded.defaultSystemTurn, ⟨Role.user, "hello there"⟩]
          then Except.ok "hi!" else Except.error ())
        [] "CA1" "hello there"
      = ([("CA1", [Recorded.defaultSystemTurn, ⟨Role.user, "hello there"⟩,
            ⟨Role.assistant, "hi!"⟩])], Except.ok "hi!") := by
  have h := successful_cycle_appends_user_then_agent
    (fun msgs => if msgs = [Recorded.defaultSystemTurn, ⟨Role.user, "hello there"⟩]
      then Except.ok "hi!" else Except.error ())
    [] "CA1" "hello there" "hi!" (by rfl)
  simpa [setH, lookupH] using h

/-! ## C5: malformed inbound frames -/

/-- Counterexample to C5: the `ws.on('message')` handler has no try/catch,
so an unparseable message makes `JSON.parse` throw — the handler throws on
malformed input instead of dropping the frame with a warning. -/
theorem malformed_frame_throws_counterexample :
    Relay.onMessage Relay.initState Relay.InboundMsg.unparseable = Except.error ()
    ∧ Relay.onMessage Relay.initState Relay.InboundMsg.mediaMissing = Except.error () :=
  ⟨rfl, rfl⟩

/-- C5 amended: a parseable frame whose event kind is neither `start` nor
`media` is silently ignored (state unchanged, nothing forwarded, and no
warning is logged), but an unparseable message, a `start` frame without a
`start` object, or a `media` frame without a `media` object makes the
handler throw. -/
theorem message_handler_malformed_behavior (st : Relay.RelayState) :
    Relay.onMessage st Relay.InboundMsg.other = Except.ok (st, [])
    ∧ Relay.onMessage st Relay.InboundMsg.unparseable = Except.error ()
    ∧ Relay.onMessage st Relay.InboundMsg.startMissing = Except.error ()
    ∧ Relay.onMessage st Relay.InboundMsg.mediaMissing = Except.error () :=
  ⟨rfl, rfl, rfl, rfl⟩

/-! ## C6: behaviour after socket close -/

/-- Counterexample to C6: after the close handler has run, a `speak` event
(in-flight synthesis output) still results in a send attempt on the
socket — there is no defensive closed-socket check before `ws.send`. -/
theorem send_after_close_counterexample :
    (Relay.onClose Relay.initState).closed = true
    ∧ (Relay.onSpeak (Relay.onClose Relay.initState) "UklG").sent
        = [⟨none, "UklG"⟩] :=
  ⟨rfl, rfl⟩

/-- C6 amended: closing the socket does release the transcript stream
connection (`deepgramLive.finish()` is called), but the `speak` handler
performs no closed-socket check: synthesis output arriving after close
still triggers a send attempt of a frame on the closed socket. -/
theorem close_finishes_stream_but_sends_unguarded
    (st : Relay.RelayState) (audio : String) :
    (Relay.onClose st).deepgramFinished = true
    ∧ (Relay.onClose st).closed = true
    ∧ (Relay.onSpeak (Relay.onClose st) audio).sent
        = st.sent ++ [⟨st.streamSid, audio⟩] :=
  ⟨rfl, rfl, rfl⟩

/-! ## C1: outbound frames and the stream SID -/

/-- The transcript handler only touches the conversation history: the
stream SID and the outbound frame list are untouched. -/
theorem onTranscript_preserves (gen : List Turn → Except Unit (List String))
    (st : Relay.RelayState) (t : String) (f : Bool) :
    ((Relay.onTranscript gen st t f).1).sent = st.sent
    ∧ ((Relay.onTranscript gen st t f).1).streamSid = st.streamSid := by
  unfold Relay.onTranscript
  split
  · cases hg : gen (st.history ++ [⟨Role.user, t⟩]) with
    | error e => simp [hg]
    | ok chunks =>
        simp only [hg]
        split <;> simp
  · simp

/-- Running a trace without throwing events sends exactly the frames
described by `sentFrames`, each tagged with the stream SID learned from
the most recent preceding start frame. -/
theorem run_sent_frames (gen : List Turn → Except Unit (List String))
    (events : List Relay.RelayEvent) :
    ∀ st : Relay.RelayState, (∀ e ∈ events, Relay.throwsEvent e = false) →
      (Relay.run gen st events).sent = st.sent ++ Relay.sentFrames st.streamSid events := by
  induction events with
  | nil => intro st _; simp [Relay.run, Relay.sentFrames]
  | cons e rest ih =>
      intro st h
      have he : Relay.throwsEvent e = false := h e (List.mem_cons_self e rest)
      have hrest : ∀ x ∈ rest, Relay.throwsEvent x = false :=
        fun x hx => h x (List.mem_cons_of_mem e hx)
      cases e with
      | msg m =>
          cases m with
          | start sid =>
              simp only [Relay.run, Relay.step, Relay.onMessage, Except.map,
                Relay.sentFrames]
              exact ih _ hrest
          | startMissing => simp [Relay.throwsEvent] at he
          | media p =>
              simp only [Relay.run, Relay.step, Relay.onMessage, Except.map,
                Relay.sentFrames]
              exact ih _ hrest
          | mediaMissing => simp [Relay.throwsEvent] at he
          | other =>
              simp only [Relay.run, Relay.step, Relay.onMessage, Except.map,
                Relay.sentFrames]
              exact ih _ hrest
          | unparseable => simp [Relay.throwsEvent] at he
      | transcript t f =>
          simp only [Relay.run, Relay.step, Relay.sentFrames]
          rw [ih _ hrest, (onTranscript_preserves gen st t f).1,
            (onTranscript_preserves gen st t f).2]
      | speak a =>
          simp only [Relay.run, Relay.step, Relay.sentFrames]
          rw [ih _ hrest]
          simp [Relay.onSpeak]
      | close =>
          simp only [Relay.run, Relay.step, Relay.sentFrames]
          rw [ih _ hrest]
          rfl

/-- Counterexample to C1: a `speak` event on a fresh connection — before
any start frame has been observed — still sends an outbound frame (with
an undefined stream SID): the relay does not withhold frames until a
start frame arrives. -/
theorem send_before_start_counterexample :
    (Relay.run genOk Relay.initState [Relay.RelayEvent.speak "UklG"]).sent
      = [⟨none, "UklG"⟩] := by
  rfl

/-- C1 amended: every outbound audio frame carries the stream SID learned
from the most recent preceding inbound start frame on that socket, or no
SID (`undefined`) if no start frame has been observed yet — frames sent
before a start frame are not suppressed, they merely carry no session
identifier. (Stated for traces whose events do not make the message
handler throw.) -/
theorem outbound_frames_carry_last_start_sid
    (gen : List Turn → Except Unit (List String))
    (events : List Relay.RelayEvent)
    (h : ∀ e ∈ events, Relay.throwsEvent e = false) :
    (Relay.run gen Relay.initState events).sent = Relay.sentFrames none events := by
  have hs := run_sent_frames gen events Relay.initState h
  simpa [Relay.initState] using hs

/-- Witness for C1 (amended), the spec's own scenario: a start frame with
SID `CA123` followed by two synthesis outputs — both outbound frames
carry `CA123`. -/
theorem outbound_frames_carry_last_start_sid_witness :
    (Relay.run genOk Relay.initState
        [Relay.RelayEvent.msg (Relay.InboundMsg.start (some "CA123")),
         Relay.RelayEvent.speak "aa", Relay.RelayEvent.speak "bb"]).sent
      = [⟨some "CA123", "aa"⟩, ⟨some "CA123", "bb"⟩] := by
  rw [outbound_frames_carry_last_start_sid genOk
    [Relay.RelayEvent.msg (Relay.InboundMsg.start (some "CA123")),
     Relay.RelayEvent.speak "aa", Relay.RelayEvent.speak "bb"] (by decide)]
  rfl

/-! ## C2: shape of the conversation history -/

/-- One transcript event takes a well-formed history to a well-formed
history: it appends nothing, a lone user turn (generation threw or the
reply was empty), or a user turn followed by the assistant turn. -/
theorem onTranscript_histOK (gen : List Turn → Except Unit (List String))
    (st : Relay.RelayState) (t : String) (f : Bool)
    (h : Relay.HistOK st.history) :
    Relay.HistOK ((Relay.onTranscript gen st t f).1).history := by
  unfold Relay.onTranscript
  split
  · cases hg : gen (st.history ++ [⟨Role.user, t⟩]) with
    | error e =>
        simp only [hg]
        exact Relay.HistOK.failBlock st.history t h
    | ok chunks =>
        simp only [hg]
        split
        · have hb := Relay.HistOK.okBlock st.history t (Relay.speakLoop chunks).1 h
          simpa [List.append_assoc] using hb
        · exact Relay.HistOK.failBlock st.history t h
  · simpa using h

/-- A generator that throws on the first user turn and succeeds afterwards
(used to exhibit the orphan user turn a failed cycle leaves behind). -/
def genFlaky : List Turn → Except Unit (List String) :=
  fun h => if h.length ≤ 2 then Except.error () else Except.ok ["hi"]

/-- Counterexample to C2: when a generation cycle throws, the user turn
pushed before the provider call stays in the history, so after a failed
cycle and a successful one the history contains two consecutive user
turns — it is not of the shape `system, (user, agent)*`. -/
theorem history_alternation_counterexample :
    Relay.isAltHistory ((Relay.run genFlaky Relay.initState
        [Relay.RelayEvent.transcript "good morning" true,
         Relay.RelayEvent.transcript "how are you" true]).history) = false := by
  decide

/-- C2 amended: under sequential event processing (each transcript event's
generation cycle completing before the next event is handled), the
history is always the initial system turn followed by one block per
completed cycle — a user turn followed by the assistant turn when
generation succeeded with a non-empty reply, or a lone (orphan) user turn
when it threw or replied empty; consecutive user turns therefore occur
exactly after failed or empty cycles. -/
theorem history_block_structure_invariant
    (gen : List Turn → Except Unit (List String))
    (events : List Relay.RelayEvent) :
    Relay.HistOK ((Relay.run gen Relay.initState events).history) := by
  suffices hgen : ∀ st : Relay.RelayState, Relay.HistOK st.history →
      Relay.HistOK ((Relay.run gen st events).history) from
    hgen Relay.initState Relay.HistOK.init
  induction events with
  | nil => intro st h; simpa [Relay.run] using h
  | cons e rest ih =>
      intro st h
      cases e with
      | msg m =>
          cases m with
          | start sid => exact ih _ (by simpa [Relay.run, Relay.step, Relay.onMessage] using h)
          | startMissing => simpa [Relay.run, Relay.step, Relay.onMessage] using h
          | media p => exact ih _ (by simpa [Relay.run, Relay.step, Relay.onMessage] using h)
          | mediaMissing => simpa [Relay.run, Relay.step, Relay.onMessage] using h
          | other => exact ih _ (by simpa [Relay.run, Relay.step, Relay.onMessage] using h)
          | unparseable => simpa [Relay.run, Relay.step, Relay.onMessage] using h
      | transcript t f =>
          exact ih _ (onTranscript_histOK gen st t f h)
      | speak a => exact ih _ (by simpa [Relay.run, Relay.step, Relay.onSpeak] using h)
      | close => exact ih _ (by simpa [Relay.run, Relay.step, Relay.onClose] using h)

/-! ## C3: provider failure during a generation cycle -/

/-- A call with one completed prior exchange already stored in the map. -/
def storedHist1 : List Turn :=
  [Recorded.defaultSystemTurn, ⟨Role.user, "a"⟩, ⟨Role.assistant, "b"⟩]

/-- A histories map holding `storedHist1` under call SID `CA1`. -/
def hs1 : Histories := [("CA1", storedHist1)]

/-- Counterexample to C3: when the map already holds history for the call,
`history` in `getAgentResponse` aliases the stored array, so the
`history.push({role:'user',...})` executed before the provider call has
already mutated the stored history when the provider throws — the stored
conversation history is changed by the failed cycle (an orphan user-only
turn is left in it). -/
theorem provider_failure_history_changed_counterexample :
    (Recorded.processRecording provFail synthId hs1 "CA1"
        (Except.ok "see you later")).1 ≠ hs1 := by
  decide

/-- C3 amended: when the provider call fails, the route answers with the
fallback apology; the stored history is unchanged only when the map had
no entry for the call yet — when history was already stored, the user
turn has been pushed into it before the failure and remains there as an
orphan user-only turn. -/
theorem provider_failure_fallback_and_history
    (provider : List Turn → Except Unit String) (synthUrl : String → String)
    (hs : Histories) (sid t : String)
    (ht : 1 < (jsTrim t).length)
    (hp : provider ((lookupH hs sid).getD [Recorded.defaultSystemTurn]
          ++ [⟨Role.user, t⟩]) = Except.error ()) :
    (Recorded.processRecording provider synthUrl hs sid (Except.ok t)).2.1
        = [Recorded.TwimlAction.say Recorded.malfunctionMsg, Recorded.TwimlAction.record]
    ∧ (lookupH hs sid = none →
        (Recorded.processRecording provider synthUrl hs sid (Except.ok t)).1 = hs)
    ∧ (∀ l, lookupH hs sid = some l →
        (Recorded.processRecording provider synthUrl hs sid (Except.ok t)).1
          = setH hs sid (l ++ [⟨Role.user, t⟩])) := by
  refine ⟨?_, ?_, ?_⟩
  · cases hl : lookupH hs sid with
    | none =>
        simp [hl] at hp
        simp [Recorded.processRecording, ht, Recorded.getAgentResponse, hl, hp]
    | some l =>
        simp [hl] at hp
        simp [Recorded.processRecording, ht, Recorded.getAgentResponse, hl, hp]
  · intro hl
    simp [hl] at hp
    simp [Recorded.processRecording, ht, Recorded.getAgentResponse, hl, hp]
  · intro l hl
    simp [hl] at hp
    simp [Recorded.processRecording, ht, Recorded.getAgentResponse, hl, hp]

/-- Witness for C3 (amended) at a concrete input: with `storedHist1`
already stored under `CA1` and a provider that throws, the route answers
with the apology and the stored history ends in the orphan user turn. -/
theorem provider_failure_fallback_and_history_witness :
    (Recorded.processRecording provFail synthId hs1 "CA1" (Except.ok "see you later")).2.1
        = [Recorded.TwimlAction.say Recorded.malfunctionMsg, Recorded.TwimlAction.record]
    ∧ (Recorded.processRecording provFail synthId hs1 "CA1" (Except.ok "see you later")).1
        = setH hs1 "CA1" (storedHist1 ++ [⟨Role.user, "see you later"⟩]) := by
  have h := provider_failure_fallback_and_history provFail synthId hs1 "CA1" "see you later"
    (by decide) (by rfl)
  exact ⟨h.1, h.2.2 storedHist1 (by rfl)⟩

/-! ## C4: empty and whitespace-only transcript segments -/

/-- Counterexample to C4: the streaming transcript guard is
`if (transcript && data.is_final)` — a whitespace-only transcript `" "`
is a non-empty string, hence truthy, so the generation call is made and
the history is mutated. -/
theorem whitespace_segment_triggers_generation_counterexample :
    (Relay.onTranscript genOk Relay.initState " " true).2.2 = true
    ∧ (Relay.onTranscript genOk Relay.initState " " true).1.history
        ≠ Relay.initState.history := by
  decide

/-- C4 amended: an empty (`""`) or non-final transcript segment triggers no
generation call and no history mutation in the streaming relay, and in
the recorded route a whitespace-only transcript is discarded (reprompt,
no generation call, no history mutation); but whitespace-only non-empty
final segments are *not* discarded by the streaming relay. -/
theorem empty_segment_discarded :
    (∀ (gen : List Turn → Except Unit (List String)) (st : Relay.RelayState) (f : Bool),
      Relay.onTranscript gen st "" f = (st, [], false))
    ∧ (∀ (gen : List Turn → Except Unit (List String)) (st : Relay.RelayState) (t : String),
      Relay.onTranscript gen st t false = (st, [], false))
    ∧ (∀ (provider : List Turn → Except Unit String) (synthUrl : String → String)
          (hs : Histories) (sid t : String), jsTrim t = "" →
      Recorded.processRecording provider synthUrl hs sid (Except.ok t)
        = (hs, [Recorded.TwimlAction.say Recorded.didntCatchMsg, Recorded.TwimlAction.record],
            false)) := by
  refine ⟨?_, ?_, ?_⟩
  · intro gen st f
    simp [Relay.onTranscript]
  · intro gen st t
    simp [Relay.onTranscript]
  · intro provider synthUrl hs sid t h
    simp [Recorded.processRecording, h]

/-- Witness for C4 (amended) at concrete inputs: the empty segment and a
non-final segment leave the relay state untouched with no generation
call, and the whitespace-only transcript `"   "` is discarded by the
recorded route. -/
theorem empty_segment_discarded_witness :
    Relay.onTranscript genOk Relay.initState "" true = (Relay.initState, [], false)
    ∧ Relay.onTranscript genOk Relay.initState "hello" false = (Relay.initState, [], false)
    ∧ Recorded.processRecording provOk synthId [] "CA1" (Except.ok "   ")
        = ([], [Recorded.TwimlAction.say Recorded.didntCatchMsg, Recorded.TwimlAction.record],
            false) :=
  ⟨empty_segment_discarded.1 genOk Relay.initState true,
   empty_segment_discarded.2.1 genOk Relay.initState "hello",
   empty_segment_discarded.2.2 provOk synthId [] "CA1" "   " (by decide)⟩
